import Mathlib

/-!
Verification of the flysms request dispatcher (package sms) against its
natural-language specification.

The development shallowly embeds the current revision of the Go sources:
src/sms/server.go (the second, final revision in that file: types Request,
Response, Content, Server, Config and functions NewServer, createMessage,
handleRequests, processRequest, sendResponse) and src/sms/client.go
(types Client, MessageCreated, MessageErrors and function createMessage).

Machine integers (int64) are modelled as Int; Go string lengths are
modelled by String.length (the source strings involved are ASCII, where
Go byte length and character count coincide); channels and goroutine
races are modelled by explicit event/branch data; HTTP and JSON transport
effects are modelled by an explicit event type enumerating the outcomes
the code branches on.
-/

namespace Sms

/-! ## HTTP status codes used by the source (net/http constants) -/

def statusBadRequest : Nat := 400
def statusMethodNotAllowed : Nat := 405
def statusRequestTimeout : Nat := 408
def statusUnprocessableEntity : Nat := 422
def statusTooManyRequests : Nat := 429
def statusInternalServerError : Nat := 500

/-! ## Response messages: the exact string literals of server.go -/

def methodNotAllowedMsg : String := "Request not allowed (invalid HTTP method)"
def badJsonMsg : String := "Bad request (invalid payload json structure)"
def recipientOutOfBoundsMsg : String := "Invalid parameter (recipient value is out of bounds)"
def originatorMissingMsg : String := "Missing parameter (originator value is not present)"
def originatorTooLongMsg : String := "Invalid parameter (originator value is to long)"
def messageMissingMsg : String := "Missing parameter (message value is not present)"
def messageTooLongMsg : String := "Invalid parameter (message value is to long)"
def limitExceededMsg : String := "Request limit exceeded (request has been dropped)"
def timeoutMsg : String := "Request timeout (process took to long to finish)"
def clientNotSetMsg : String := "Internal error (API client not set)"
def apiRequestFailedMsg : String := "Internal error (API request failed)"

/-! ## Data model (server.go, final revision) -/

/-- Content keeps together all the parameters associated with an SMS
(server.go, struct Content). -/
structure Content where
  ID : String
  Recipient : Int
  Originator : String
  Message : String
  Status : String
  Created : String
deriving DecidableEq

/-- The Go zero value of Content (all fields at their zero values). -/
def Content.empty : Content :=
  { ID := "", Recipient := 0, Originator := "", Message := "", Status := "", Created := "" }

/-- Response is the representation of an HTTP response (server.go, struct
Response): unexported statusCode plus the JSON body fields. -/
structure Response where
  statusCode : Nat
  Success : Bool
  Data : Content
  Error : String
deriving DecidableEq

/-- A context handle as produced by context.WithTimeout: identity of the
context object plus the absolute deadline instant it carries. -/
structure Ctx where
  id : Nat
  deadline : Nat
deriving DecidableEq

/-- Request is the representation of an SMS request (server.go, struct
Request): the three payload fields decoded from the HTTP body, the
per-request context and the result channel (modelled by its identity). -/
structure Request where
  Recipient : Int
  Originator : String
  Message : String
  ctx : Ctx
  resChId : Nat
deriving DecidableEq

/-! ## Validation (server.go, createMessage lines 205-260) -/

/-- recp := fmt.Sprintf("%d", req.Recipient): the signed decimal string
rendering of the int64 recipient. -/
def recpString (n : Int) : String := toString n

/-- The 422 response for a recipient whose rendered length is outside 7..15. -/
def recipientOutOfBoundsResponse : Response :=
  { statusCode := statusUnprocessableEntity, Success := false,
    Data := Content.empty, Error := recipientOutOfBoundsMsg }

/-- The 422 response for an absent originator. -/
def originatorMissingResponse : Response :=
  { statusCode := statusUnprocessableEntity, Success := false,
    Data := Content.empty, Error := originatorMissingMsg }

/-- The 422 response for an originator longer than 11. -/
def originatorTooLongResponse : Response :=
  { statusCode := statusUnprocessableEntity, Success := false,
    Data := Content.empty, Error := originatorTooLongMsg }

/-- The 422 response for an absent message. -/
def messageMissingResponse : Response :=
  { statusCode := statusUnprocessableEntity, Success := false,
    Data := Content.empty, Error := messageMissingMsg }

/-- The 422 response for a message longer than 160. -/
def messageTooLongResponse : Response :=
  { statusCode := statusUnprocessableEntity, Success := false,
    Data := Content.empty, Error := messageTooLongMsg }

/-- The field validation chain of createMessage (server.go lines 205-260),
run after method and JSON-structure checks: some res is the 422 rejection
sent by the first failing check, none means all checks passed and a
Request Record is about to be constructed. -/
def validateRequest (recipient : Int) (originator message : String) : Option Response :=
  if (recpString recipient).length < 7 ∨ 15 < (recpString recipient).length then
    some recipientOutOfBoundsResponse
  else if originator.length = 0 then
    some originatorMissingResponse
  else if 11 < originator.length then
    some originatorTooLongResponse
  else if message.length = 0 then
    some messageMissingResponse
  else if 160 < message.length then
    some messageTooLongResponse
  else
    none

/-- Modelled from the spec: the recipient's decimal digit count (the spec's
validation contract is stated over digit counts, while the code measures
the signed string rendering; this definition exists to compare the two). -/
def specDecimalDigitCount (n : Int) : Nat := (toString n.natAbs).length

/-! ## Provider adapter data model (client.go) -/

/-- MessageItem contains relevant information for a given recipient
(client.go). The statusDatetime timestamp is kept as its rendered string. -/
structure MessageItem where
  Recipient : Int
  Status : String
  StatusDateTime : String
deriving DecidableEq

/-- MessageRecipients contains relevant information about every recipient
(client.go). -/
structure MessageRecipients where
  Items : List MessageItem
deriving DecidableEq

/-- MessageCreated is the API mapping for a succesfully created message
(client.go). The createdDatetime timestamp is kept as its rendered string,
and the RFC3339 re-rendering done by processRequest is modelled as the
identity on that string. -/
structure MessageCreated where
  ID : String
  Originator : String
  Body : String
  Recipients : MessageRecipients
  CreatedDateTime : String
deriving DecidableEq

/-- MessageError represents every error in the bag (client.go). -/
structure MessageError where
  Code : Int
  Description : String
  Parameter : String
deriving DecidableEq

/-- MessageErrors is the errors bag API response for a failed create
message action (client.go). -/
structure MessageErrors where
  Errors : List MessageError
deriving DecidableEq

/-- Client sends requests to the SMS API (client.go). The http.Client with
its transport timeout is out of scope; only the configuration fields are
kept. -/
structure Client where
  accessKey : String
  baseURL : String
deriving DecidableEq

/-- The dynamically typed result value of Client.createMessage: the
interface value is always one of the two decoded shapes. -/
inductive ApiResult where
  | created (m : MessageCreated)
  | errors (e : MessageErrors)
deriving DecidableEq

/-- The outcomes of the I/O performed by Client.createMessage that the code
branches on: request construction failing (http.NewRequest, line 96), the
transport failing (httpClient.Do, line 103), reading the body failing
(ioutil.ReadAll, line 108), or a body arriving with an HTTP status, where
decCreated is the result of json.Unmarshal into MessageCreated (none =
unmarshal error) and decErrors the result of json.Unmarshal into
MessageErrors (none = unmarshal error). -/
inductive TransportEvent where
  | buildFail
  | doFail
  | readFail
  | response (status : Nat) (decCreated : Option MessageCreated) (decErrors : Option MessageErrors)
deriving DecidableEq

/-- The (interface value, status code, error) triple returned by
Client.createMessage. Error values keep only the static text of the
fmt.Errorf format string; the interpolated URL/request/body details are
elided. -/
structure ClientResult where
  data : Option ApiResult
  statusCode : Nat
  err : Option String
deriving DecidableEq

def cannotCreateRequestMsg : String := "Cannot create POST request"
def cannotGetResponseMsg : String := "Cannot get response for request"
def cannotReadBodyMsg : String := "Cannot read response body"
def unmarshalFailedMsg : String := "Failed to unmarshal body into JSON"

/-- Client.createMessage (client.go lines 87-134): build the form request,
execute it, read the body, unmarshal into MessageCreated, probe the ID for
non-emptiness to disambiguate, otherwise unmarshal into MessageErrors.
Every failure returns (nil, 500, err); both decoded shapes are returned as
normal values with the response's status code and a nil error. -/
def clientCreateMessage (_c : Client) (t : TransportEvent) : ClientResult :=
  match t with
  | TransportEvent.buildFail =>
      { data := none, statusCode := statusInternalServerError, err := some cannotCreateRequestMsg }
  | TransportEvent.doFail =>
      { data := none, statusCode := statusInternalServerError, err := some cannotGetResponseMsg }
  | TransportEvent.readFail =>
      { data := none, statusCode := statusInternalServerError, err := some cannotReadBodyMsg }
  | TransportEvent.response status decCreated decErrors =>
      match decCreated with
      | none =>
          { data := none, statusCode := statusInternalServerError, err := some unmarshalFailedMsg }
      | some m =>
          if m.ID ≠ "" then
            { data := some (ApiResult.created m), statusCode := status, err := none }
          else
            match decErrors with
            | none =>
                { data := none, statusCode := statusInternalServerError,
                  err := some unmarshalFailedMsg }
            | some e =>
                { data := some (ApiResult.errors e), statusCode := status, err := none }

/-! ## Worker (server.go, processRequest lines 309-369) -/

/-- The internal-failure responses the worker builds (statusCode 500,
zero-valued Success and Data). -/
def internalFailureResponse (msg : String) : Response :=
  { statusCode := statusInternalServerError, Success := false,
    Data := Content.empty, Error := msg }

/-- The success response the worker builds from a MessageCreated value and
the head item of its recipients list (server.go lines 335-347). -/
def deliveredResponse (st : Nat) (m : MessageCreated) (item : MessageItem) : Response :=
  { statusCode := st, Success := true,
    Data := { ID := m.ID, Recipient := item.Recipient, Originator := m.Originator,
              Message := m.Body, Status := item.Status, Created := m.CreatedDateTime },
    Error := "" }

/-- The failure response the worker builds from a MessageErrors value:
the first error's description becomes the user-facing message
(server.go lines 348-353). -/
def providerRejectedResponse (st : Nat) (description : String) : Response :=
  { statusCode := st, Success := false, Data := Content.empty, Error := description }

/-- The Go zero value of Response, left in res if the type switch matched
neither decoded shape (unreachable for values produced by
clientCreateMessage). -/
def zeroResponse : Response :=
  { statusCode := 0, Success := false, Data := Content.empty, Error := "" }

/-- The classification the worker goroutine applies to the triple returned
by the client call (server.go lines 324-354): a non-nil error becomes the
generic 500 response; MessageCreated becomes the success response reading
Items[0] (none models the index-out-of-range panic on an empty list);
MessageErrors becomes the failure response reading Errors[0] (likewise). -/
def classifyClientResult (cr : ClientResult) : Option Response :=
  match cr.err with
  | some _ => some (internalFailureResponse apiRequestFailedMsg)
  | none =>
      match cr.data with
      | some (ApiResult.created m) =>
          match m.Recipients.Items with
          | [] => none
          | item :: _ => some (deliveredResponse cr.statusCode m item)
      | some (ApiResult.errors e) =>
          match e.Errors with
          | [] => none
          | e0 :: _ => some (providerRejectedResponse cr.statusCode e0.Description)
      | none => some zeroResponse

/-- What the worker goroutine (server.go lines 313-355) computes: the
response it assigns to res, and whether the downstream client call was
attempted. A nil message client short-circuits to the 500 client-not-set
response without calling downstream. -/
structure WorkerOutcome where
  response : Option Response
  downstreamCalled : Bool
deriving DecidableEq

/-- The worker goroutine body (server.go lines 313-355): s.messageClient
is nil → client-not-set internal failure, no downstream call; otherwise
call the client against the transport's behaviour and classify the triple. -/
def workerCompute (mc : Option Client) (t : TransportEvent) : WorkerOutcome :=
  match mc with
  | none => { response := some (internalFailureResponse clientNotSetMsg), downstreamCalled := false }
  | some c => { response := classifyClientResult (clientCreateMessage c t), downstreamCalled := true }

/-- Which branch of the worker's select (server.go lines 357-368) fires:
the completion marker (done closed) or the request context's deadline. -/
inductive RaceWinner where
  | completed
  | deadlineDone
deriving DecidableEq

/-- The observable effect of the worker's select on the outcome channel:
a successful send, a logged silent drop (the non-blocking default branch),
the logged timeout branch (no send), or the two effects the code can never
produce, blocking and panicking in the send. -/
inductive DeliveryEffect where
  | sentResponse (res : Response)
  | dropLogged (res : Response)
  | timeoutLogged
  | blocked
  | panicked
deriving DecidableEq

/-- The worker's select (server.go lines 357-368) given the computed
response: on completion, a non-blocking send that succeeds exactly when
the ingress handler is still receiving and otherwise falls to the logged
default branch; on deadline expiry, only a log, never a send. -/
def workerDeliver (winner : RaceWinner) (receiverReady : Bool) (res : Response) : DeliveryEffect :=
  match winner with
  | RaceWinner.completed =>
      if receiverReady then DeliveryEffect.sentResponse res else DeliveryEffect.dropLogged res
  | RaceWinner.deadlineDone => DeliveryEffect.timeoutLogged

/-- One run of processRequest (server.go lines 309-369): the background
goroutine's outcome (computed to completion whether or not the deadline
fires first — nothing cancels it), the effect on the outcome channel, and
whether any cancellation signal was propagated to the transport layer
(the client call takes no context, so never). -/
structure WorkerRun where
  backgroundOutcome : WorkerOutcome
  effect : DeliveryEffect
  cancellationSent : Bool
deriving DecidableEq

/-- processRequest (server.go lines 309-369): launch the goroutine, race
done against req.ctx.Done(), and deliver per workerDeliver. A none
response models the goroutine panicking on an empty Items/Errors list,
which can never reach a send. -/
def processRequest (mc : Option Client) (t : TransportEvent) (winner : RaceWinner)
    (receiverReady : Bool) : WorkerRun :=
  { backgroundOutcome := workerCompute mc t
  , effect :=
      match (workerCompute mc t).response with
      | some r => workerDeliver winner receiverReady r
      | none =>
          match winner with
          | RaceWinner.deadlineDone => DeliveryEffect.timeoutLogged
          | RaceWinner.completed => DeliveryEffect.panicked
  , cancellationSent := false }

/-! ## Server construction (server.go, NewServer lines 169-178) -/

/-- Config is a collection of configuration options for the server
(server.go). Durations are modelled in abstract time units. -/
structure Config where
  Buffer : Nat
  ReqTimeout : Nat
  ThrottleRate : Nat
  MessageClient : Option Client
deriving DecidableEq

/-- Server is the frontend server (server.go): the request channel is
modelled by its capacity and current contents, the remaining fields as in
the source. The unexported buf field is never assigned by NewServer and is
omitted. -/
structure Server where
  reqChCap : Nat
  reqCh : List Request
  reqTimeout : Nat
  throttleRate : Nat
  messageClient : Option Client
deriving DecidableEq

/-- NewServer creates a new server from the given config (server.go lines
169-178); it is total, and in particular accepts a nil MessageClient. -/
def NewServer (cfg : Config) : Server :=
  { reqChCap := cfg.Buffer
  , reqCh := []
  , reqTimeout := cfg.ReqTimeout
  , throttleRate := cfg.ThrottleRate
  , messageClient := cfg.MessageClient }

/-! ## Record construction and the shared deadline
(server.go, createMessage lines 262-266) -/

/-- The state right after createMessage accepts a validated request:
the record as submitted to the queue (its ctx and resCh fields freshly
assigned) and the local ctx variable the ingress select will race
(server.go lines 262-266 and 281-290). -/
structure AcceptedRequest where
  record : Request
  waitCtx : Ctx
deriving DecidableEq

/-- Lines 262-266 of createMessage: ctx := context.WithTimeout(now, s.reqTimeout);
req.ctx = ctx; req.resCh = make(chan Response). ctxId names the fresh
context object and chId the fresh channel. -/
def acceptRequest (now reqTimeout ctxId chId : Nat) (req : Request) : AcceptedRequest :=
  { record := { req with ctx := { id := ctxId, deadline := now + reqTimeout }, resChId := chId }
  , waitCtx := { id := ctxId, deadline := now + reqTimeout } }

/-- The context the ingress handler's select races (server.go line 284:
case <-ctx.Done(), on the local ctx variable). -/
def ingressWaitCtx (a : AcceptedRequest) : Ctx := a.waitCtx

/-- The context the worker's select races (server.go line 366:
case <-req.ctx.Done(), on the record's ctx field). -/
def workerWaitCtx (r : Request) : Ctx := r.ctx

/-! ## Admission queue (server.go, createMessage lines 268-279) -/

/-- The 429 response of the default branch of the submit select. -/
def limitExceededResponse : Response :=
  { statusCode := statusTooManyRequests, Success := false,
    Data := Content.empty, Error := limitExceededMsg }

/-- The result of the submit select: the record went onto the buffered
channel, or the default branch fired with the 429 rejection. -/
inductive SubmitResult where
  | accepted (q : List Request)
  | rejected (res : Response)
deriving DecidableEq

/-- The submit select of createMessage (server.go lines 268-279) with no
concurrent receiver draining the channel: the buffered send succeeds
exactly when the buffer of capacity B has a free slot, and otherwise the
default branch rejects immediately — it never blocks and never overfills
the buffer. -/
def submit (B : Nat) (q : List Request) (r : Request) : SubmitResult :=
  if q.length < B then SubmitResult.accepted (q ++ [r]) else SubmitResult.rejected limitExceededResponse

/-- The queue contents after a submit attempt. -/
def submitQueue (B : Nat) (q : List Request) (r : Request) : List Request :=
  match submit B q r with
  | SubmitResult.accepted q2 => q2
  | SubmitResult.rejected _ => q

/-- A sequence of submit attempts against one queue (the serialization of
concurrent producers on the channel): final queue, number accepted,
number rejected. -/
def runSubmits (B : Nat) (q : List Request) : List Request → List Request × Nat × Nat
  | [] => (q, 0, 0)
  | r :: rest =>
      match submit B q r with
      | SubmitResult.accepted q2 =>
          ((runSubmits B q2 rest).1, (runSubmits B q2 rest).2.1 + 1, (runSubmits B q2 rest).2.2)
      | SubmitResult.rejected _ =>
          ((runSubmits B q rest).1, (runSubmits B q rest).2.1, (runSubmits B q rest).2.2 + 1)

/-! ## Ingress wait (server.go, createMessage lines 281-291) -/

/-- The 408 response of the ctx.Done branch of the ingress select. -/
def timeoutResponse : Response :=
  { statusCode := statusRequestTimeout, Success := false,
    Data := Content.empty, Error := timeoutMsg }

/-- Which branch of the ingress handler's select fires: a response
arriving on the record's outcome channel, or the context's deadline. -/
inductive AwaitEvent where
  | outcome (res : Response)
  | ctxDone
deriving DecidableEq

/-- The ingress handler's wait (server.go lines 281-291): the list of
sendResponse calls it performs for the fired branch — the received
response, or the 408 timeout response. -/
def ingressEmit (e : AwaitEvent) : List Response :=
  match e with
  | AwaitEvent.outcome res => [res]
  | AwaitEvent.ctxDone => [timeoutResponse]

/-! ## Dispatch loop (server.go, handleRequests lines 300-307) -/

/-- The primitive steps of one iteration of the dispatch loop. -/
inductive DispatchAction where
  | pullRecord
  | awaitTick
  | spawnWorker
deriving DecidableEq

/-- The body of handleRequests (server.go lines 300-307) as the ordered
actions of one loop iteration: for req := range s.reqCh pulls one record
(blocking while the queue is empty), then <-ticker awaits a tick of
period s.throttleRate, then go s.processRequest(req) spawns one worker,
and the loop continues. -/
def handleRequestsCycle : List DispatchAction :=
  [DispatchAction.pullRecord, DispatchAction.awaitTick, DispatchAction.spawnWorker]

/-- The wall-clock instant of the tick consumed by the i-th release, for a
run in which the i-th loop iteration consumes the tick produced at time
n i * T (time.Tick produces ticks at multiples of the period T, and each
iteration consumes one tick, so n is strictly increasing across
iterations). -/
def releaseTime (T : Nat) (n : Nat → Nat) (i : Nat) : Nat := n i * T

/-- A concrete valid request record, used to evaluate the queue model. -/
def sampleRequest : Request :=
  { Recipient := 1234567890, Originator := "MessageBird", Message := "This is a test message",
    ctx := { id := 0, deadline := 0 }, resChId := 0 }

end Sms

/-! Concrete evaluation checks for the client and worker embedding. -/

example : (Sms.clientCreateMessage { accessKey := "", baseURL := "" } Sms.TransportEvent.buildFail).err.isSome = true := by decide
example : Sms.workerCompute none Sms.TransportEvent.doFail =
    { response := some (Sms.internalFailureResponse Sms.clientNotSetMsg), downstreamCalled := false } := by decide

/-! Concrete evaluation checks for the validation embedding. -/

example : (Sms.recpString (-123456)).length = 7 := by decide
example : (Sms.recpString 123456).length = 6 := by decide
example : Sms.specDecimalDigitCount (-123456) = 6 := by decide
example : Sms.validateRequest 1234567890 "MessageBird" "This is a test message" = none := by decide
example : Sms.validateRequest 123456 "MessageBird" "This is a test message" =
    some Sms.recipientOutOfBoundsResponse := by decide

/-! ## Theorems -/

namespace Sms

/-- C10: recipient validation measures the length of the signed decimal
string rendering of the integer recipient, so the minus sign of a negative
recipient counts as a character: recipient -123456, which has only 6
decimal digits, renders as a 7-character string and passes validation,
while the positive 6-digit recipient 123456 is rejected. -/
theorem negative_recipient_sign_counted :
    (recpString (-123456)).length = 7 ∧
    specDecimalDigitCount (-123456) = 6 ∧
    validateRequest (-123456) "MessageBird" "This is a test message" = none ∧
    validateRequest 123456 "MessageBird" "This is a test message" =
      some recipientOutOfBoundsResponse :=
  ⟨by decide, by decide, by decide, by decide⟩

/-- C9: every request owns exactly one deadline: the context with timeout D
created at record construction (createMessage lines 262-266) is the very
context raced by the ingress select (line 284) and by the worker's select
(line 366), so both waits share one deadline instant, now + D. -/
theorem single_shared_deadline (now reqTimeout ctxId chId : Nat) (req : Request) :
    ingressWaitCtx (acceptRequest now reqTimeout ctxId chId req) =
      workerWaitCtx (acceptRequest now reqTimeout ctxId chId req).record ∧
    (ingressWaitCtx (acceptRequest now reqTimeout ctxId chId req)).deadline = now + reqTimeout ∧
    (workerWaitCtx (acceptRequest now reqTimeout ctxId chId req).record).deadline =
      now + reqTimeout :=
  ⟨rfl, rfl, rfl⟩

/-- C4: when the adapter call completes before the deadline, the worker's
send on the outcome channel is non-blocking: it succeeds when the ingress
handler is receiving, silently falls to the logged default branch when it
is not, and can never block or panic. -/
theorem worker_send_nonblocking (ready : Bool) (res : Response) :
    workerDeliver RaceWinner.completed true res = DeliveryEffect.sentResponse res ∧
    workerDeliver RaceWinner.completed false res = DeliveryEffect.dropLogged res ∧
    workerDeliver RaceWinner.completed ready res ≠ DeliveryEffect.blocked ∧
    workerDeliver RaceWinner.completed ready res ≠ DeliveryEffect.panicked := by
  refine ⟨rfl, rfl, ?_, ?_⟩ <;> cases ready <;> simp [workerDeliver]

/-- C5: when the deadline elapses before the adapter call completes, the
worker never sends on the outcome channel (it only logs the timeout), the
background adapter call still runs to completion with its result
discarded, and no cancellation signal is propagated to the transport
layer. -/
theorem deadline_first_abandons (mc : Option Client) (t : TransportEvent) (ready : Bool) :
    (processRequest mc t RaceWinner.deadlineDone ready).effect = DeliveryEffect.timeoutLogged ∧
    (∀ r, (processRequest mc t RaceWinner.deadlineDone ready).effect ≠
        DeliveryEffect.sentResponse r) ∧
    (processRequest mc t RaceWinner.deadlineDone ready).backgroundOutcome = workerCompute mc t ∧
    (processRequest mc t RaceWinner.deadlineDone ready).cancellationSent = false := by
  have heff : (processRequest mc t RaceWinner.deadlineDone ready).effect =
      DeliveryEffect.timeoutLogged := by
    unfold processRequest
    cases h : (workerCompute mc t).response <;> simp [h, workerDeliver]
  exact ⟨heff, fun r => by rw [heff]; simp, rfl, rfl⟩

/-- C6: a worker whose server has no message client configured produces the
500 client-not-set internal failure without attempting any downstream
call, and NewServer accepts a nil client as a valid configuration (it is a
total constructor that simply stores the configured client). -/
theorem nil_client_internal_failure (t : TransportEvent) (cfg : Config) :
    workerCompute none t =
      { response := some (internalFailureResponse clientNotSetMsg), downstreamCalled := false } ∧
    (workerCompute none t).downstreamCalled = false ∧
    (internalFailureResponse clientNotSetMsg).statusCode = 500 ∧
    (NewServer cfg).messageClient = cfg.MessageClient :=
  ⟨rfl, rfl, rfl, rfl⟩

/-- C8 counterexample: the recipient -123456 has decimal digit count 6,
outside the claimed range [7,15], yet field validation passes it (no 422 is
produced), because the code measures the signed string rendering rather
than the digit count. -/
theorem digit_count_claim_counterexample :
    specDecimalDigitCount (-123456) = 6 ∧
    ¬ 7 ≤ specDecimalDigitCount (-123456) ∧
    validateRequest (-123456) "MessageBird" "This is a test message" = none :=
  ⟨by decide, by decide, by decide⟩

/-- C8 (amended): validation passes exactly when the signed decimal string
rendering of the recipient has length in [7,15] (equivalently, digit count
in [7,15] for nonnegative recipients), the originator length is in [1,11]
and the message length is in [1,160]; any violation short-circuits with
the corresponding 422 response, as in the concrete scenarios: a 6-digit
recipient, an empty originator, a 12-character originator, and a
161-character message. -/
theorem validation_bounds :
    (∀ (recipient : Int) (originator message : String),
        validateRequest recipient originator message = none ↔
          (7 ≤ (recpString recipient).length ∧ (recpString recipient).length ≤ 15 ∧
           1 ≤ originator.length ∧ originator.length ≤ 11 ∧
           1 ≤ message.length ∧ message.length ≤ 160)) ∧
    (∀ (recipient : Int) (originator message : String),
        ((recpString recipient).length < 7 ∨ 15 < (recpString recipient).length) →
          validateRequest recipient originator message = some recipientOutOfBoundsResponse) ∧
    validateRequest 123456 "MessageBird" "This is a test message" =
      some recipientOutOfBoundsResponse ∧
    validateRequest 1234567890 "" "This is a test message" = some originatorMissingResponse ∧
    validateRequest 1234567890 "OriginatorXY" "This is a test message" =
      some originatorTooLongResponse ∧
    validateRequest 1234567890 "MessageBird" (String.mk (List.replicate 161 'X')) =
      some messageTooLongResponse := by
  refine ⟨?_, ?_, by decide, by decide, by decide, ?_⟩
  · intro recipient originator message
    unfold validateRequest
    split_ifs with h1 h2 h3 h4 h5
    · exact iff_of_false (by simp) (by omega)
    · exact iff_of_false (by simp) (by omega)
    · exact iff_of_false (by simp) (by omega)
    · exact iff_of_false (by simp) (by omega)
    · exact iff_of_false (by simp) (by omega)
    · exact iff_of_true rfl (by omega)
  · intro recipient originator message h
    unfold validateRequest
    rw [if_pos h]
  · have hlen : (String.mk (List.replicate 161 'X')).length = 161 := by
      simp [String.length]
    unfold validateRequest
    rw [if_neg (by decide), if_neg (by decide), if_neg (by decide),
        if_neg (by omega), if_pos (by omega)]

end Sms

namespace Sms

/-- Counting helper for the admission queue: over any serialized sequence
of submit attempts against a queue with free capacity, the number accepted
is the free capacity capped by the number of attempts, the rest are
rejected, and the queue never exceeds its capacity. -/
theorem runSubmits_spec : ∀ (rs q : List Request) (B : Nat), q.length ≤ B →
    (runSubmits B q rs).2.1 = min rs.length (B - q.length) ∧
    (runSubmits B q rs).2.2 = rs.length - (B - q.length) ∧
    (runSubmits B q rs).1.length ≤ B
  | [], q, B, h => by
      simp only [runSubmits, List.length_nil]
      refine ⟨by omega, by omega, h⟩
  | r :: rest, q, B, h => by
      by_cases hq : q.length < B
      · have hlen2 : (q ++ [r]).length ≤ B := by
          simp only [List.length_append, List.length_cons, List.length_nil]
          omega
        have ih := runSubmits_spec rest (q ++ [r]) B hlen2
        have hsub : submit B q r = SubmitResult.accepted (q ++ [r]) := by
          unfold submit
          rw [if_pos hq]
        simp only [List.length_append, List.length_cons, List.length_nil] at ih
        simp only [runSubmits, hsub, List.length_cons]
        refine ⟨by omega, by omega, ih.2.2⟩
      · have ih := runSubmits_spec rest q B h
        have hsub : submit B q r = SubmitResult.rejected limitExceededResponse := by
          unfold submit
          rw [if_neg hq]
        simp only [runSubmits, hsub, List.length_cons]
        refine ⟨by omega, by omega, ih.2.2⟩

/-- C2: submission to the admission queue is non-blocking: when the buffer
of capacity B is full the submit select's default branch fires at once
with the 429 "Request limit exceeded (request has been dropped)" response,
the buffer never grows beyond B, and with capacity 10 and 11 serialized
submissions against an undrained queue exactly 10 are accepted and exactly
1 is rejected. -/
theorem admission_backpressure :
    (∀ (B : Nat) (q : List Request) (r : Request), q.length = B →
        submit B q r = SubmitResult.rejected limitExceededResponse) ∧
    (limitExceededResponse.statusCode = 429 ∧ limitExceededResponse.Error = limitExceededMsg) ∧
    (∀ (B : Nat) (q : List Request) (r : Request), q.length ≤ B →
        (submitQueue B q r).length ≤ B) ∧
    (∀ rs : List Request, rs.length = 11 →
        (runSubmits 10 [] rs).2.1 = 10 ∧ (runSubmits 10 [] rs).2.2 = 1) := by
  refine ⟨?_, ⟨rfl, rfl⟩, ?_, ?_⟩
  · intro B q r h
    unfold submit
    rw [if_neg (by omega)]
  · intro B q r h
    unfold submitQueue submit
    by_cases hq : q.length < B
    · rw [if_pos hq]
      simp only [List.length_append, List.length_cons, List.length_nil]
      omega
    · rw [if_neg hq]
      exact h
  · intro rs h
    have hs := runSubmits_spec rs [] 10 (by simp)
    simp only [List.length_nil, Nat.sub_zero, h] at hs
    exact ⟨by omega, by omega⟩

/-- C2 witness: submitting to a full (here: zero-capacity) queue is
rejected with the 429 response, and 11 concrete submissions against an
empty queue of capacity 10 yield exactly 10 accepted and 1 rejected. -/
theorem admission_backpressure_check :
    submit 0 [] sampleRequest = SubmitResult.rejected limitExceededResponse ∧
    (runSubmits 10 [] (List.replicate 11 sampleRequest)).2.1 = 10 ∧
    (runSubmits 10 [] (List.replicate 11 sampleRequest)).2.2 = 1 :=
  ⟨admission_backpressure.1 0 [] sampleRequest rfl,
   (admission_backpressure.2.2.2 (List.replicate 11 sampleRequest) (by simp)).1,
   (admission_backpressure.2.2.2 (List.replicate 11 sampleRequest) (by simp)).2⟩

/-- C3 counterexample: the dispatch loop's cycle does not begin by waiting
for a tick: its first action is pulling a record from the queue (the range
over s.reqCh), and only then does it await the ticker. -/
theorem dispatch_order_counterexample :
    handleRequestsCycle.head? = some DispatchAction.pullRecord ∧
    handleRequestsCycle ≠
      [DispatchAction.awaitTick, DispatchAction.pullRecord, DispatchAction.spawnWorker] :=
  ⟨rfl, by decide⟩

/-- C3 (amended): the dispatch loop, on every cycle, first pulls exactly
one record from the admission queue (blocking if the queue is momentarily
empty), then waits for a tick of the fixed pacing interval T, then spawns
exactly one worker and continues to the next cycle; each release consumes
a distinct tick, and since the ticks of period T occurring in any
continuous window of length k*T number at most k+1, at most k+1 records
are released from the queue to workers in such a window. -/
theorem dispatch_cycle_and_pacing :
    handleRequestsCycle =
      [DispatchAction.pullRecord, DispatchAction.awaitTick, DispatchAction.spawnWorker] ∧
    handleRequestsCycle.count DispatchAction.pullRecord = 1 ∧
    handleRequestsCycle.count DispatchAction.spawnWorker = 1 ∧
    (∀ (T a k m : Nat) (n : Nat → Nat), 0 < T → StrictMono n →
        ((Finset.range m).filter
            (fun i => a ≤ releaseTime T n i ∧ releaseTime T n i ≤ a + k * T)).card ≤ k + 1) := by
  refine ⟨rfl, by decide, by decide, ?_⟩
  intro T a k m n hT hn
  classical
  have hsub : ∀ i ∈ (Finset.range m).filter
      (fun i => a ≤ releaseTime T n i ∧ releaseTime T n i ≤ a + k * T),
      n i ∈ Finset.Icc (a / T) (a / T + k) := by
    intro i hi
    simp only [Finset.mem_filter, Finset.mem_range, releaseTime] at hi
    obtain ⟨-, h1, h2⟩ := hi
    have hlow : a / T ≤ n i := by
      have := Nat.div_le_div_right (c := T) h1
      rwa [Nat.mul_div_cancel _ hT] at this
    have hhigh : n i ≤ a / T + k := by
      have h3 : n i ≤ (a + k * T) / T := (Nat.le_div_iff_mul_le hT).mpr h2
      rwa [Nat.add_mul_div_right a k hT] at h3
    exact Finset.mem_Icc.mpr ⟨hlow, hhigh⟩
  have hinj : Set.InjOn n ((Finset.range m).filter
      (fun i => a ≤ releaseTime T n i ∧ releaseTime T n i ≤ a + k * T)) :=
    fun x _ y _ hxy => hn.injective hxy
  have hcard := Finset.card_le_card_of_injOn n hsub hinj
  rw [Nat.card_Icc] at hcard
  omega

/-- C3 witness: a concrete run (period 1, the identity tick assignment,
5 iterations) releases at most 3 records in the window from 0 to 2. -/
theorem dispatch_pacing_check :
    ((Finset.range 5).filter
        (fun i => 0 ≤ releaseTime 1 id i ∧ releaseTime 1 id i ≤ 0 + 2 * 1)).card ≤ 2 + 1 :=
  dispatch_cycle_and_pacing.2.2.2 1 0 2 5 id Nat.one_pos strictMono_id

end Sms

namespace Sms

/-- C7: the provider adapter call returns a non-nil error exactly when
request construction fails, the transport call fails, the body cannot be
read, or the body cannot be decoded (no MessageCreated decode, or an
empty-ID probe followed by no MessageErrors decode); the worker maps every
such error to the generic 500 internal failure. A successfully decoded
error payload is returned as a normal value carrying the response's status
code and a nil error, and the worker maps it to the provider-rejected
response surfacing the first error's description. -/
theorem adapter_error_classification (c : Client) (status : Nat) (m : MessageCreated)
    (e : MessageErrors) (d : Option ApiResult) (st2 : Nat) (msg : String)
    (e0 : MessageError) (rest : List MessageError) :
    ((clientCreateMessage c TransportEvent.buildFail).err.isSome = true ∧
     (clientCreateMessage c TransportEvent.doFail).err.isSome = true ∧
     (clientCreateMessage c TransportEvent.readFail).err.isSome = true ∧
     (clientCreateMessage c (TransportEvent.response status none none)).err.isSome = true ∧
     (clientCreateMessage c (TransportEvent.response status none (some e))).err.isSome = true ∧
     ((clientCreateMessage c (TransportEvent.response status (some m) none)).err.isSome ↔
        m.ID = "") ∧
     (clientCreateMessage c (TransportEvent.response status (some m) (some e))).err = none) ∧
    classifyClientResult { data := d, statusCode := st2, err := some msg } =
      some (internalFailureResponse apiRequestFailedMsg) ∧
    (clientCreateMessage c (TransportEvent.response status
        (some { m with ID := "" }) (some { Errors := e0 :: rest })) =
      { data := some (ApiResult.errors { Errors := e0 :: rest }), statusCode := status,
        err := none }) ∧
    classifyClientResult
        { data := some (ApiResult.errors { Errors := e0 :: rest }), statusCode := status,
          err := none } =
      some (providerRejectedResponse status e0.Description) := by
  refine ⟨⟨rfl, rfl, rfl, rfl, rfl, ?_, ?_⟩, rfl, ?_, rfl⟩
  · by_cases h : m.ID = "" <;> simp [clientCreateMessage, h]
  · by_cases h : m.ID = "" <;> simp [clientCreateMessage, h]
  · simp [clientCreateMessage]

/-- Every some-response of the worker's classification of a client triple
is one of the three downstream shapes — the generic 500 internal failure,
a delivered-success response, or a provider-rejected response — unless the
triple had neither a data value nor an error (which clientCreateMessage
never produces, see clientCreateMessage_data_or_err). -/
theorem classify_shapes (cr : ClientResult) (r : Response)
    (h : classifyClientResult cr = some r) :
    r = internalFailureResponse apiRequestFailedMsg ∨
    (∃ st mm item, r = deliveredResponse st mm item) ∨
    (∃ st dsc, r = providerRejectedResponse st dsc) ∨
    (cr.data = none ∧ cr.err = none) := by
  rcases cr with ⟨d, st, err⟩
  cases err with
  | some msg =>
      simp only [classifyClientResult, Option.some.injEq] at h
      exact Or.inl h.symm
  | none =>
      cases d with
      | none => exact Or.inr (Or.inr (Or.inr ⟨rfl, rfl⟩))
      | some ar =>
          cases ar with
          | created mm =>
              cases hitems : mm.Recipients.Items with
              | nil => simp [classifyClientResult, hitems] at h
              | cons item tail =>
                  simp only [classifyClientResult, hitems, Option.some.injEq] at h
                  exact Or.inr (Or.inl ⟨st, mm, item, h.symm⟩)
          | errors ee =>
              cases herr : ee.Errors with
              | nil => simp [classifyClientResult, herr] at h
              | cons e0 tail =>
                  simp only [classifyClientResult, herr, Option.some.injEq] at h
                  exact Or.inr (Or.inr (Or.inl ⟨st, e0.Description, h.symm⟩))

/-- clientCreateMessage never returns a triple with neither a data value
nor an error: every return of client.go either carries a non-nil error or
one of the two decoded shapes. -/
theorem clientCreateMessage_data_or_err (c : Client) (t : TransportEvent) :
    ¬ ((clientCreateMessage c t).data = none ∧ (clientCreateMessage c t).err = none) := by
  cases t with
  | buildFail => simp [clientCreateMessage]
  | doFail => simp [clientCreateMessage]
  | readFail => simp [clientCreateMessage]
  | response status dc de =>
      cases dc with
      | none => simp [clientCreateMessage]
      | some m =>
          by_cases hid : m.ID = ""
          · cases de with
            | none => simp [clientCreateMessage, hid]
            | some e2 => simp [clientCreateMessage, hid]
          · simp [clientCreateMessage, hid]

/-- C1: the ingress handler's wait emits exactly one response for every
accepted request: the response received on the record's outcome channel,
or the 408 timeout response when the deadline fires first — never zero and
never two; and every response a worker can put on the channel is one of
the client-not-set internal failure, the generic API internal failure, a
delivered-success response, or a provider-rejected response, so the caller
observes exactly one of the four outcome kinds. -/
theorem ingress_exactly_one_outcome (mc : Option Client) (t : TransportEvent) (e : AwaitEvent) :
    (ingressEmit e).length = 1 ∧
    (∀ r, ingressEmit (AwaitEvent.outcome r) = [r]) ∧
    ingressEmit AwaitEvent.ctxDone = [timeoutResponse] ∧
    (∀ r, (workerCompute mc t).response = some r →
        r = internalFailureResponse clientNotSetMsg ∨
        r = internalFailureResponse apiRequestFailedMsg ∨
        (∃ st mm item, r = deliveredResponse st mm item) ∨
        (∃ st dsc, r = providerRejectedResponse st dsc)) := by
  refine ⟨?_, fun r => rfl, rfl, ?_⟩
  · cases e <;> rfl
  · intro r hr
    cases mc with
    | none =>
        simp only [workerCompute, Option.some.injEq] at hr
        exact Or.inl hr.symm
    | some c =>
        simp only [workerCompute] at hr
        rcases classify_shapes _ r hr with h1 | h2 | h3 | h4
        · exact Or.inr (Or.inl h1)
        · exact Or.inr (Or.inr (Or.inl h2))
        · exact Or.inr (Or.inr (Or.inr h3))
        · exact absurd h4 (clientCreateMessage_data_or_err c t)

/-- C1 witness: with no client configured, the worker's response is the
client-not-set internal failure, the classification disjunction holds for
it, and the ingress timeout branch emits exactly one response. -/
theorem ingress_exactly_one_outcome_check :
    (workerCompute none TransportEvent.buildFail).response =
      some (internalFailureResponse clientNotSetMsg) ∧
    (internalFailureResponse clientNotSetMsg = internalFailureResponse clientNotSetMsg ∨
     internalFailureResponse clientNotSetMsg = internalFailureResponse apiRequestFailedMsg ∨
     (∃ st mm item, internalFailureResponse clientNotSetMsg = deliveredResponse st mm item) ∨
     (∃ st dsc, internalFailureResponse clientNotSetMsg = providerRejectedResponse st dsc)) ∧
    (ingressEmit AwaitEvent.ctxDone).length = 1 :=
  ⟨rfl,
   (ingress_exactly_one_outcome none TransportEvent.buildFail AwaitEvent.ctxDone).2.2.2
     (internalFailureResponse clientNotSetMsg) rfl,
   (ingress_exactly_one_outcome none TransportEvent.buildFail AwaitEvent.ctxDone).1⟩

end Sms
